import Mathlib

/-!
Verification development for a browser 3D exploration game.
The JavaScript sources are shallowly embedded in Lean: JS numbers are
modelled as rationals (all the arithmetic the claims touch is exact on
the inputs involved), `Math.floor` as `Int.floor`, `Math.max` as `max`,
fallible/optional JS values as `Option`, and mutating methods as pure
state-passing functions on structures mirroring the classes.
-/

/-- A 3D vector (THREE.Vector3) with rational components. -/
structure Vec3 where
  x : ℚ
  y : ℚ
  z : ℚ
deriving DecidableEq, Repr

/-- Vector addition. -/
def Vec3.add (a b : Vec3) : Vec3 := ⟨a.x + b.x, a.y + b.y, a.z + b.z⟩

/-- THREE.Vector3.addScaledVector: `v + w * s`. -/
def Vec3.addScaled (v w : Vec3) (s : ℚ) : Vec3 :=
  ⟨v.x + w.x * s, v.y + w.y * s, v.z + w.z * s⟩

/-- THREE.Vector3.sub. -/
def Vec3.sub (a b : Vec3) : Vec3 := ⟨a.x - b.x, a.y - b.y, a.z - b.z⟩

/-- THREE.Vector3.multiplyScalar. -/
def Vec3.scale (v : Vec3) (s : ℚ) : Vec3 := ⟨v.x * s, v.y * s, v.z * s⟩

/-- THREE.Vector3.dot. -/
def Vec3.dot (a b : Vec3) : ℚ := a.x * b.x + a.y * b.y + a.z * b.z

/-- Math.sign: -1, 0 or 1 according to the sign of the argument. -/
def qsign (q : ℚ) : ℚ := if 0 < q then 1 else if q < 0 then -1 else 0

/-- An axis-aligned box (THREE.Box3), stored as min/max corners. -/
structure Box where
  min : Vec3
  max : Vec3
deriving DecidableEq, Repr

/-- THREE.Box3.getCenter. -/
def Box.center (b : Box) : Vec3 :=
  ⟨(b.min.x + b.max.x) / 2, (b.min.y + b.max.y) / 2, (b.min.z + b.max.z) / 2⟩

/-- THREE.Box3.getSize. -/
def Box.size (b : Box) : Vec3 :=
  ⟨b.max.x - b.min.x, b.max.y - b.min.y, b.max.z - b.min.z⟩

/-- THREE.Box3.intersectsBox: inclusive interval overlap on all three axes
(`box.max.x < this.min.x || box.min.x > this.max.x || ... ? false : true`). -/
def Box.intersectsBox (a b : Box) : Bool :=
  if b.max.x < a.min.x ∨ b.min.x > a.max.x ∨
     b.max.y < a.min.y ∨ b.min.y > a.max.y ∨
     b.max.z < a.min.z ∨ b.min.z > a.max.z
  then false else true

/-- Per-axis penetration depth on x, as computed in Player.handleCollisions:
`(playerSize.x / 2 + objectSize.x / 2) - Math.abs(playerCenter.x - objectCenter.x)`. -/
def overlapX (a b : Box) : ℚ :=
  (a.size.x / 2 + b.size.x / 2) - |(a.center.x - b.center.x)|

/-- Per-axis penetration depth on y (Player.handleCollisions). -/
def overlapY (a b : Box) : ℚ :=
  (a.size.y / 2 + b.size.y / 2) - |(a.center.y - b.center.y)|

/-- Per-axis penetration depth on z (Player.handleCollisions). -/
def overlapZ (a b : Box) : ℚ :=
  (a.size.z / 2 + b.size.z / 2) - |(a.center.z - b.center.z)|

/-- Two boxes overlap with strictly positive depth on every axis
(interpenetration beyond mere touching). -/
def strictlyOverlaps (a b : Box) : Prop :=
  0 < overlapX a b ∧ 0 < overlapY a b ∧ 0 < overlapZ a b

instance (a b : Box) : Decidable (strictlyOverlaps a b) := by
  unfold strictlyOverlaps; infer_instance

/-!
Score computation (src/core: Game.calculateScore, and its inline
duplicates in Game.gameOver and Game.respawnPlayer).
`state.gameTimer` is a number accumulated from frame deltas (modelled
as ℚ); `state.artifacts` / `state.memories` are integer counters (ℕ).
-/

/-- Game.calculateScore(isWin): reads state.gameTimer / state.artifacts /
state.memories; here those three are passed explicitly.
`TimeScore = Math.max(0, 10000 - elapsedSeconds * 10)`,
`CollectibleScore = artifacts * 1000 + memories * 750`,
plus a win bonus of 1000 when `isWin`, finally `Math.floor`ed. -/
def Game.calculateScore (gameTimer : ℚ) (artifacts memories : ℕ) (isWin : Bool) : ℤ :=
  let BaseTimeScore : ℚ := 10000
  let PenaltyPerSecond : ℚ := 10
  let PointsPerArtifact : ℚ := 1000
  let PointsPerMemory : ℚ := 750
  let WinBonus : ℚ := 1000
  let TimeScore := max 0 (BaseTimeScore - gameTimer * PenaltyPerSecond)
  let CollectibleScore := (artifacts : ℚ) * PointsPerArtifact + (memories : ℚ) * PointsPerMemory
  let CalculatedScore := TimeScore + CollectibleScore
  let CalculatedScore := if isWin then CalculatedScore + WinBonus else CalculatedScore
  ⌊CalculatedScore⌋

/-- The inline score formula in Game.respawnPlayer (the IIFE used when no
precomputed score is passed): identical constants, no win bonus. -/
def Game.respawnInlineScore (gameTimer : ℚ) (artifacts memories : ℕ) : ℤ :=
  let BaseTimeScore : ℚ := 10000
  let PenaltyPerSecond : ℚ := 10
  let PointsPerArtifact : ℚ := 1000
  let PointsPerMemory : ℚ := 750
  let TimeScore := max 0 (BaseTimeScore - gameTimer * PenaltyPerSecond)
  let CollectibleScore := (artifacts : ℚ) * PointsPerArtifact + (memories : ℚ) * PointsPerMemory
  ⌊TimeScore + CollectibleScore⌋

/-- The inline score formula in Game.gameOver: identical constants, no win
bonus (`this.state.finalScore = Math.floor(CalculatedScore)`). -/
def Game.gameOverInlineScore (gameTimer : ℚ) (artifacts memories : ℕ) : ℤ :=
  let BaseTimeScore : ℚ := 10000
  let PenaltyPerSecond : ℚ := 10
  let PointsPerArtifact : ℚ := 1000
  let PointsPerMemory : ℚ := 750
  let TimeScore := max 0 (BaseTimeScore - gameTimer * PenaltyPerSecond)
  let CollectibleScore := (artifacts : ℚ) * PointsPerArtifact + (memories : ℚ) * PointsPerMemory
  let CalculatedScore := TimeScore + CollectibleScore
  ⌊CalculatedScore⌋

/-- C1 counterexample: the claim asserts `computeScore(50, 1, 1, true) = 11250`,
but the code yields `(10000 - 500) + (1000 + 750) + 1000 = 12250`; the spec's
worked example forgot to add the WinBonus term into its final sum. -/
theorem calculateScore_50_1_1_true_ne_11250 :
    Game.calculateScore 50 1 1 true ≠ 11250 := by with_unfolding_all decide

/-- C1 (amended): computeScore applied to elapsedSeconds=50, artifactCount=1,
memoryCount=1, isWin=true returns 12250: timeScore = max(0, 10000 - 50*10) = 9500,
collectibleScore = 1*1000 + 1*750 = 1750, plus WinBonus = 1000, floored. -/
theorem calculateScore_50_1_1_true_eq_12250 :
    Game.calculateScore 50 1 1 true = 12250 := by with_unfolding_all decide

/-- C2: for every game state (any gameTimer, artifacts, memories values), the
inline score formula embedded in respawnPlayer returns exactly the same integer
as the shared calculateScore function called with isWin = false, and the inline
formula in gameOver does as well. -/
theorem inlineScores_refine_calculateScore (gameTimer : ℚ) (artifacts memories : ℕ) :
    Game.respawnInlineScore gameTimer artifacts memories
        = Game.calculateScore gameTimer artifacts memories false
      ∧ Game.gameOverInlineScore gameTimer artifacts memories
        = Game.calculateScore gameTimer artifacts memories false :=
  ⟨rfl, rfl⟩

/-- C5: for every elapsedSeconds ≥ 0 and any artifact/memory counts and isWin
flag, computeScore returns a non-negative integer (the time term is clamped at
zero), and in particular computeScore(2000, 0, 0, false) = 0. -/
theorem calculateScore_nonneg :
    (∀ (gameTimer : ℚ) (artifacts memories : ℕ) (isWin : Bool),
        0 ≤ gameTimer → 0 ≤ Game.calculateScore gameTimer artifacts memories isWin)
      ∧ Game.calculateScore 2000 0 0 false = 0 := by
  constructor
  · intro t a m w _
    unfold Game.calculateScore
    apply Int.le_floor.mpr
    push_cast
    have h1 : (0 : ℚ) ≤ max 0 (10000 - t * 10) := le_max_left _ _
    have h2 : (0 : ℚ) ≤ (a : ℚ) * 1000 + (m : ℚ) * 750 := by positivity
    cases w <;> simp <;> nlinarith
  · with_unfolding_all decide

/-- C5 witness: the non-negativity theorem applied at a concrete input. -/
theorem calculateScore_nonneg_witness :
    (0 : ℚ) ≤ 125 ∧ 0 ≤ Game.calculateScore 125 2 3 true :=
  ⟨by norm_num, calculateScore_nonneg.1 125 2 3 true (by norm_num)⟩

/-!
Player (src/entities/player.js): movement actor with a mesh-derived
hitbox. `hbMinOff`/`hbMaxOff` are the constant offsets of the mesh's
bounding box relative to the mesh position (determined by the fixed
player geometry), so `THREE.Box3.setFromObject(this.mesh)` is the box
`[position + hbMinOff, position + hbMaxOff]`.
-/

/-- The Player actor state (class Player). -/
structure Player where
  position : Vec3
  velocity : Vec3
  isGrounded : Bool
  isJumping : Bool
  isFalling : Bool
  currentFallDistance : ℚ
  hasHighJump : Bool
  canTelekinesis : Bool
  currentHealth : ℚ
  maxHealth : ℚ
  hbMinOff : Vec3
  hbMaxOff : Vec3
  hitbox : Box
deriving DecidableEq, Repr

/-- THREE.Box3().setFromObject(this.mesh): the mesh bounding box at the
player's current position (constant offsets, translated by position). -/
def Player.meshBounds (p : Player) : Box :=
  ⟨p.position.add p.hbMinOff, p.position.add p.hbMaxOff⟩

/-- Argument passed to Player.setPosition, abstracting the JS value:
null/undefined, a THREE.Vector3 instance, or an arbitrary object whose
x/y/z properties are either a number or absent (undefined). -/
inductive PosArg where
  | nullish
  | vector3 (v : Vec3)
  | other (x y z : Option ℚ)
deriving DecidableEq

/-- JS `v || d` for a possibly-absent number `v`: the default is used when
the value is missing or falsy (0). -/
def jsOr (v : Option ℚ) (dflt : ℚ) : ℚ :=
  match v with
  | none => dflt
  | some q => if q = 0 then dflt else q

/-- Player.setPosition: null/undefined becomes (0, 2, 0); a non-Vector3
object is coerced componentwise via `position.x || 0`, `position.y || 2`,
`position.z || 0`; the mesh position is set and the hitbox refreshed with
setFromObject. -/
def Player.setPosition (p : Player) (position : PosArg) : Player :=
  let pos : Vec3 :=
    match position with
    | .nullish => ⟨0, 2, 0⟩
    | .vector3 v => v
    | .other x y z => ⟨jsOr x 0, jsOr y 2, jsOr z 0⟩
  let p := { p with position := pos }
  { p with hitbox := p.meshBounds }

/-- Push axis selected by collision resolution. -/
inductive Axis where
  | x
  | y
  | z
deriving DecidableEq, Repr

/-- Minimum translation vector direction for a chosen push axis: the unit
axis vector signed by `Math.sign(playerCenter - objectCenter)` on that axis
(zero vector component when the centers coincide on the axis). -/
def mtvFor (playerBox objectBox : Box) (a : Axis) : Vec3 :=
  match a with
  | .x => ⟨qsign (playerBox.center.x - objectBox.center.x), 0, 0⟩
  | .y => ⟨0, qsign (playerBox.center.y - objectBox.center.y), 0⟩
  | .z => ⟨0, 0, qsign (playerBox.center.z - objectBox.center.z)⟩

/-- Body of the forEach callback in Player.handleCollisions, resolving the
player against one collision body: refresh the player hitbox, test box
intersection, compute per-axis overlaps, skip if any is non-positive, else
push out along the axis of minimum overlap (ties: first of x, y, z) by
`minOverlap * 1.01`, cancel velocity into the obstacle, and force grounded
on an upward push while not jumping. -/
def Player.resolveCollision (p : Player) (objectHitbox : Box) : Player :=
  let p := { p with hitbox := p.meshBounds }
  if p.hitbox.intersectsBox objectHitbox then
    let ox := overlapX p.hitbox objectHitbox
    let oy := overlapY p.hitbox objectHitbox
    let oz := overlapZ p.hitbox objectHitbox
    if ox ≤ 0 ∨ oy ≤ 0 ∨ oz ≤ 0 then p
    else
      let m2 := if oy < ox then oy else ox
      let a2 := if oy < ox then Axis.y else Axis.x
      let m3 := if oz < m2 then oz else m2
      let a3 := if oz < m2 then Axis.z else a2
      let pushAmount := m3 * (101 / 100)
      let mtv := mtvFor p.hitbox objectHitbox a3
      let p := { p with position := p.position.addScaled mtv pushAmount }
      let velocityAlongNormal := p.velocity.dot mtv
      let p :=
        if velocityAlongNormal < 0 then
          { p with velocity := p.velocity.sub (mtv.scale velocityAlongNormal) }
        else p
      if a3 = Axis.y ∧ 0 < mtv.y ∧ ¬p.isJumping then
        { p with isGrounded := true, isFalling := false }
      else p
  else p

/-- Player.handleCollisions: skip when the collision set is empty, else
resolve each body in order (the player hitbox is refreshed at the start of
each iteration inside resolveCollision) and finally refresh the hitbox. -/
def Player.handleCollisions (p : Player) (collisionObjects : List Box) : Player :=
  if collisionObjects.isEmpty then p
  else
    let p := collisionObjects.foldl Player.resolveCollision p
    { p with hitbox := p.meshBounds }

/-!
Ground detection (Player.checkGrounded). A ground body is modelled by the
height of its top surface directly under the actor: the downward ray from
the mesh position hits it at distance `originY - surfaceY` when the surface
is at or below the origin. THREE.Raycaster(origin, (0,-1,0), 0, 2)
.intersectObjects returns the hits with distance within [near, far] =
[0, 2], sorted by ascending distance, so its first entry is the minimum.
-/

/-- Distance at which the downward ray from height `originY` hits a ground
surface at height `surfaceY` (none when the surface is above the origin). -/
def groundRayHit (originY surfaceY : ℚ) : Option ℚ :=
  if surfaceY ≤ originY then some (originY - surfaceY) else none

/-- Minimum of a list of rationals, none for the empty list. -/
def minOfList : List ℚ → Option ℚ
  | [] => none
  | d :: rest => some (rest.foldl min d)

/-- Player.checkGrounded: grounded iff the ground-object set is present and
non-empty and the nearest ray hit within the probe range is at distance ≤ 2
(`intersects.length > 0 && intersects[0].distance <= 2`). -/
def Player.checkGrounded (p : Player) (groundObjects : Option (List ℚ)) : Player :=
  let objs := groundObjects.getD []
  if objs.isEmpty then { p with isGrounded := false }
  else
    let intersects :=
      (objs.filterMap (groundRayHit p.position.y)).filter
        (fun d => decide (0 ≤ d) && decide (d ≤ 2))
    match minOfList intersects with
    | some d => { p with isGrounded := decide (d ≤ 2) }
    | none => { p with isGrounded := false }

/-- C9: Player.setPosition is total over arbitrary inputs: null/undefined
places the actor at (0, 2, 0); a non-vector object is coerced componentwise
with defaults x=0, y=2, z=0 (JS `||` semantics, captured by jsOr); in every
case the hitbox is refreshed from the new mesh position. Totality (never
throws) holds by construction: setPosition is a total function on PosArg. -/
theorem setPosition_total (p : Player) :
    ((p.setPosition PosArg.nullish).position = ⟨0, 2, 0⟩)
      ∧ (∀ x y z : Option ℚ,
          (p.setPosition (PosArg.other x y z)).position = ⟨jsOr x 0, jsOr y 2, jsOr z 0⟩)
      ∧ (∀ arg : PosArg, (p.setPosition arg).hitbox = (p.setPosition arg).meshBounds) :=
  ⟨rfl, fun _ _ _ => rfl, fun arg => by cases arg <;> rfl⟩

/-- Folding min over a list yields an element of the seed-extended list. -/
theorem foldl_min_mem (l : List ℚ) (d : ℚ) : l.foldl min d ∈ d :: l := by
  induction l generalizing d with
  | nil => simp
  | cons e t ih =>
    have h1 := ih (min d e)
    rcases List.mem_cons.1 h1 with h2 | h2
    · rcases min_choice d e with h3 | h3 <;> rw [List.foldl_cons, h2, h3] <;> simp
    · simp [List.foldl_cons, List.mem_cons.2 (Or.inr h2)]

/-- The minimum of a non-empty list is one of its elements. -/
theorem minOfList_mem {l : List ℚ} {m : ℚ} (h : minOfList l = some m) : m ∈ l := by
  cases l with
  | nil => simp [minOfList] at h
  | cons d t =>
    simp only [minOfList, Option.some.injEq] at h
    rw [← h]
    exact foldl_min_mem t d

/-- minOfList is none exactly on the empty list. -/
theorem minOfList_eq_none {l : List ℚ} : minOfList l = none ↔ l = [] := by
  cases l <;> simp [minOfList]

/-- Characterization of checkGrounded on a present ground-object list: the
actor is grounded iff some ground surface lies at or below the ray origin
within the 2-unit probe distance. -/
theorem checkGrounded_iff (p : Player) (objs : List ℚ) :
    (p.checkGrounded (some objs)).isGrounded = true
      ↔ ∃ h ∈ objs, h ≤ p.position.y ∧ p.position.y - h ≤ 2 := by
  unfold Player.checkGrounded
  cases hobjs : objs with
  | nil => simp
  | cons o rest =>
    simp only [Option.getD_some, List.isEmpty_cons, Bool.false_eq_true, if_false]
    set l := ((o :: rest).filterMap (groundRayHit p.position.y)).filter
      (fun d => decide (0 ≤ d) && decide (d ≤ 2)) with hl
    have hmem : ∀ d ∈ l, ∃ h ∈ o :: rest, h ≤ p.position.y ∧ p.position.y - h = d ∧ d ≤ 2 := by
      intro d hd
      rw [hl, List.mem_filter, List.mem_filterMap] at hd
      obtain ⟨⟨h, hh, hhit⟩, hcond⟩ := hd
      unfold groundRayHit at hhit
      by_cases hle : h ≤ p.position.y
      · rw [if_pos hle, Option.some.injEq] at hhit
        simp only [Bool.and_eq_true, decide_eq_true_eq] at hcond
        exact ⟨h, hh, hle, hhit, hcond.2⟩
      · rw [if_neg hle] at hhit; exact absurd hhit (by simp)
    constructor
    · intro hg
      cases hmin : minOfList l with
      | none => rw [hmin] at hg; simp at hg
      | some d =>
        obtain ⟨h, hh, hle, heq, hd2⟩ := hmem d (minOfList_mem hmin)
        exact ⟨h, hh, hle, by rw [heq]; exact hd2⟩
    · rintro ⟨h, hh, hle, hdist⟩
      have hd : p.position.y - h ∈ l := by
        rw [hl, List.mem_filter, List.mem_filterMap]
        refine ⟨⟨h, hh, ?_⟩, ?_⟩
        · unfold groundRayHit; rw [if_pos hle]
        · simp only [Bool.and_eq_true, decide_eq_true_eq]
          exact ⟨by linarith, hdist⟩
      cases hmin : minOfList l with
      | none => rw [minOfList_eq_none.1 hmin] at hd; simp at hd
      | some m =>
        obtain ⟨_, _, _, _, hm2⟩ := hmem m (minOfList_mem hmin)
        simp [hmin, hm2]

/-- C6: in checkGrounded, an actor whose downward ray hits a ground body at
exactly the probe distance (2 units) is grounded; an actor all of whose ray
hits are strictly beyond the probe distance is not grounded; and whenever
the ground-object set is missing or empty the actor is never grounded. -/
theorem checkGrounded_boundary (p : Player) (objs : List ℚ) :
    (∀ h ∈ objs, p.position.y - h = 2 → (p.checkGrounded (some objs)).isGrounded = true)
      ∧ ((∀ h ∈ objs, h ≤ p.position.y → 2 < p.position.y - h) →
          (p.checkGrounded (some objs)).isGrounded = false)
      ∧ (p.checkGrounded none).isGrounded = false
      ∧ (p.checkGrounded (some [])).isGrounded = false := by
  refine ⟨?_, ?_, rfl, rfl⟩
  · intro h hh hdist
    exact (checkGrounded_iff p objs).2 ⟨h, hh, by linarith, le_of_eq hdist⟩
  · intro hall
    by_contra hne
    have hg : (p.checkGrounded (some objs)).isGrounded = true := by
      cases hb : (p.checkGrounded (some objs)).isGrounded
      · exact absurd hb hne
      · rfl
    obtain ⟨h, hh, hle, hd⟩ := (checkGrounded_iff p objs).1 hg
    exact absurd hd (not_le.2 (hall h hh hle))

/-- C6 witness: checkGrounded applied at a concrete boundary input: the ray
origin is at height 5 and the only ground surface at height 3, exactly the
probe distance 2 below. -/
theorem checkGrounded_boundary_witness :
    ((⟨⟨0, 5, 0⟩, ⟨0, 0, 0⟩, false, false, false, 0, false, false, 100, 100,
        ⟨0, 0, 0⟩, ⟨0, 0, 0⟩, ⟨⟨0, 0, 0⟩, ⟨0, 0, 0⟩⟩⟩ : Player).checkGrounded
      (some [3])).isGrounded = true := by
  apply (checkGrounded_boundary _ [3]).1 3 (by simp)
  with_unfolding_all decide

/-- Concrete player for the collision counterexample: a 2-unit cube hitbox
centred on the position, at the origin, at rest. -/
def collisionPlayer : Player :=
  ⟨⟨0, 0, 0⟩, ⟨0, 0, 0⟩, false, false, false, 0, false, false, 100, 100,
    ⟨-1, -1, -1⟩, ⟨1, 1, 1⟩, ⟨⟨0, 0, 0⟩, ⟨0, 0, 0⟩⟩⟩

/-- First collision body of the counterexample (overlapping the player from
the right on x). -/
def collisionBodyA : Box := ⟨⟨1/2, -1, -1⟩, ⟨5/2, 1, 1⟩⟩

/-- Second collision body of the counterexample (touching the player on the
left on x; it overlaps after the push-out from the first body). -/
def collisionBodyB : Box := ⟨⟨-3, -1, -1⟩, ⟨-1, 1, 1⟩⟩

/-- C3 counterexample: after handleCollisions completes on a player initially
overlapping body A (and touching body B), the push-out from A moves the player
into B, and the push-out from B moves it back into A: the final bounding box
still interpenetrates body A with depth 10101/20000 > 1/2 on x (and 2 on y, z),
far beyond floating-point tolerance. -/
theorem handleCollisions_leaves_penetration :
    strictlyOverlaps ((collisionPlayer.handleCollisions
        [collisionBodyA, collisionBodyB]).hitbox) collisionBodyA
      ∧ 1 / 2 ≤ overlapX ((collisionPlayer.handleCollisions
          [collisionBodyA, collisionBodyB]).hitbox) collisionBodyA := by
  with_unfolding_all decide

/-- Unfolding lemma: handleCollisions on a single body resolves that body and
refreshes the hitbox. -/
theorem handleCollisions_singleton (p : Player) (b : Box) :
    p.handleCollisions [b]
      = { p.resolveCollision b with hitbox := (p.resolveCollision b).meshBounds } := rfl

/-- resolveCollision leaves the player unchanged (apart from the hitbox
refresh) when the boxes do not intersect. -/
theorem resolveCollision_of_not_intersects (p : Player) (b : Box)
    (h : (p.meshBounds).intersectsBox b = false) :
    p.resolveCollision b = { p with hitbox := p.meshBounds } := by
  unfold Player.resolveCollision
  simp [h]

/-- resolveCollision skips the body entirely when some per-axis overlap is
non-positive. -/
theorem resolveCollision_of_nonpos_overlap (p : Player) (b : Box)
    (h : overlapX (p.meshBounds) b ≤ 0 ∨ overlapY (p.meshBounds) b ≤ 0
      ∨ overlapZ (p.meshBounds) b ≤ 0) :
    p.resolveCollision b = { p with hitbox := p.meshBounds } := by
  unfold Player.resolveCollision
  by_cases hI : (p.meshBounds).intersectsBox b = true
  · simp [hI, h]
  · simp [hI]

/-- resolveCollision never changes the hitbox offsets (they come from the
fixed mesh geometry). -/
theorem resolveCollision_offsets (p : Player) (b : Box) :
    (p.resolveCollision b).hbMinOff = p.hbMinOff
      ∧ (p.resolveCollision b).hbMaxOff = p.hbMaxOff := by
  simp only [Player.resolveCollision]
  split_ifs <;> simp_all

/-- When all overlaps are positive and x is the minimum (ties with y or z
keep x, the first axis evaluated), resolveCollision pushes along x by
`overlapX * 1.01` and cancels the velocity component along the push normal
exactly when it points into the obstacle. -/
theorem resolveCollision_push_x (p : Player) (b : Box)
    (hI : (p.meshBounds).intersectsBox b = true)
    (h1 : 0 < overlapX (p.meshBounds) b) (h2 : 0 < overlapY (p.meshBounds) b)
    (h3 : 0 < overlapZ (p.meshBounds) b)
    (hxy : overlapX (p.meshBounds) b ≤ overlapY (p.meshBounds) b)
    (hxz : overlapX (p.meshBounds) b ≤ overlapZ (p.meshBounds) b) :
    (p.resolveCollision b).position
        = p.position.addScaled (mtvFor (p.meshBounds) b Axis.x)
            (overlapX (p.meshBounds) b * (101 / 100))
      ∧ (p.resolveCollision b).velocity
        = (if p.velocity.dot (mtvFor (p.meshBounds) b Axis.x) < 0 then
            p.velocity.sub ((mtvFor (p.meshBounds) b Axis.x).scale
              (p.velocity.dot (mtvFor (p.meshBounds) b Axis.x)))
          else p.velocity) := by
  have hnp : ¬(overlapX (p.meshBounds) b ≤ 0 ∨ overlapY (p.meshBounds) b ≤ 0
      ∨ overlapZ (p.meshBounds) b ≤ 0) := by
    push_neg
    exact ⟨h1, h2, h3⟩
  simp only [Player.resolveCollision, hI, if_true, if_neg hnp,
    if_neg (not_lt.2 hxy), if_neg (not_lt.2 hxz)]
  split_ifs <;> simp_all

/-- When all overlaps are positive and y is strictly smaller than x (and no
larger than z), resolveCollision pushes along y by `overlapY * 1.01`. -/
theorem resolveCollision_push_y (p : Player) (b : Box)
    (hI : (p.meshBounds).intersectsBox b = true)
    (h1 : 0 < overlapX (p.meshBounds) b) (h2 : 0 < overlapY (p.meshBounds) b)
    (h3 : 0 < overlapZ (p.meshBounds) b)
    (hyx : overlapY (p.meshBounds) b < overlapX (p.meshBounds) b)
    (hyz : overlapY (p.meshBounds) b ≤ overlapZ (p.meshBounds) b) :
    (p.resolveCollision b).position
        = p.position.addScaled (mtvFor (p.meshBounds) b Axis.y)
            (overlapY (p.meshBounds) b * (101 / 100))
      ∧ (p.resolveCollision b).velocity
        = (if p.velocity.dot (mtvFor (p.meshBounds) b Axis.y) < 0 then
            p.velocity.sub ((mtvFor (p.meshBounds) b Axis.y).scale
              (p.velocity.dot (mtvFor (p.meshBounds) b Axis.y)))
          else p.velocity) := by
  have hnp : ¬(overlapX (p.meshBounds) b ≤ 0 ∨ overlapY (p.meshBounds) b ≤ 0
      ∨ overlapZ (p.meshBounds) b ≤ 0) := by
    push_neg
    exact ⟨h1, h2, h3⟩
  simp only [Player.resolveCollision, hI, if_true, if_neg hnp,
    if_pos hyx, if_neg (not_lt.2 hyz)]
  split_ifs <;> simp_all

/-- When all overlaps are positive and z is strictly smaller than both x and
y, resolveCollision pushes along z by `overlapZ * 1.01`. -/
theorem resolveCollision_push_z (p : Player) (b : Box)
    (hI : (p.meshBounds).intersectsBox b = true)
    (h1 : 0 < overlapX (p.meshBounds) b) (h2 : 0 < overlapY (p.meshBounds) b)
    (h3 : 0 < overlapZ (p.meshBounds) b)
    (hzx : overlapZ (p.meshBounds) b < overlapX (p.meshBounds) b)
    (hzy : overlapZ (p.meshBounds) b < overlapY (p.meshBounds) b) :
    (p.resolveCollision b).position
        = p.position.addScaled (mtvFor (p.meshBounds) b Axis.z)
            (overlapZ (p.meshBounds) b * (101 / 100))
      ∧ (p.resolveCollision b).velocity
        = (if p.velocity.dot (mtvFor (p.meshBounds) b Axis.z) < 0 then
            p.velocity.sub ((mtvFor (p.meshBounds) b Axis.z).scale
              (p.velocity.dot (mtvFor (p.meshBounds) b Axis.z)))
          else p.velocity) := by
  have hnp : ¬(overlapX (p.meshBounds) b ≤ 0 ∨ overlapY (p.meshBounds) b ≤ 0
      ∨ overlapZ (p.meshBounds) b ≤ 0) := by
    push_neg
    exact ⟨h1, h2, h3⟩
  have hm2 : (if overlapY (p.meshBounds) b < overlapX (p.meshBounds) b
      then overlapY (p.meshBounds) b else overlapX (p.meshBounds) b)
        = min (overlapY (p.meshBounds) b) (overlapX (p.meshBounds) b) := by
    rw [min_def]
    split_ifs with ha hb <;> first | rfl | linarith
  have hz3 : overlapZ (p.meshBounds) b
      < (if overlapY (p.meshBounds) b < overlapX (p.meshBounds) b
          then overlapY (p.meshBounds) b else overlapX (p.meshBounds) b) := by
    rw [hm2]
    exact lt_min hzy hzx
  simp only [Player.resolveCollision, hI, if_true, if_neg hnp, if_pos hz3]
  split_ifs <;> simp_all

/-- Arithmetic core of the push-out: moving by `1.01 * overlap` along the
signed center-difference direction makes the axis overlap strictly negative,
provided the centers differ on that axis. -/
theorem push_separates (halfsum d m : ℚ) (hm : 0 < m)
    (he : halfsum - |d| = m) (hd : d ≠ 0) :
    halfsum - |d + qsign d * (m * (101 / 100))| < 0 := by
  rcases lt_or_gt_of_ne hd with hneg | hpos
  · have hs : qsign d = -1 := by
      unfold qsign
      rw [if_neg (by linarith), if_pos hneg]
    have habs : |d| = -d := abs_of_neg hneg
    have hX : d + (-1) * (m * (101 / 100)) < 0 := by linarith
    rw [hs, abs_of_neg hX]
    rw [habs] at he
    linarith
  · have hs : qsign d = 1 := by
      unfold qsign
      rw [if_pos hpos]
    have habs : |d| = d := abs_of_pos hpos
    have hX : 0 < d + 1 * (m * (101 / 100)) := by linarith
    rw [hs, abs_of_pos hX]
    rw [habs] at he
    linarith

/-- A strict interval separation on an axis forces a negative overlap value
on that axis (for arbitrary, even degenerate, box extents). -/
theorem separated_overlap_neg (amin amax bmin bmax : ℚ)
    (h : bmax < amin ∨ bmin > amax) :
    (amax - amin) / 2 + (bmax - bmin) / 2
      - |(amin + amax) / 2 - (bmin + bmax) / 2| < 0 := by
  rcases h with h | h
  · have h1 : (amin + amax) / 2 - (bmin + bmax) / 2
        ≤ |(amin + amax) / 2 - (bmin + bmax) / 2| := le_abs_self _
    linarith
  · have h1 : -((amin + amax) / 2 - (bmin + bmax) / 2)
        ≤ |(amin + amax) / 2 - (bmin + bmax) / 2| := neg_le_abs _
    linarith

/-- Non-intersecting boxes have a strictly negative overlap on some axis. -/
theorem not_intersects_overlap_neg (a b : Box)
    (h : a.intersectsBox b = false) :
    overlapX a b < 0 ∨ overlapY a b < 0 ∨ overlapZ a b < 0 := by
  unfold Box.intersectsBox at h
  split_ifs at h with hc
  rcases hc with hc | hc | hc | hc | hc | hc
  · refine Or.inl ?_
    simp only [overlapX, Box.size, Box.center]
    exact separated_overlap_neg _ _ _ _ (Or.inl hc)
  · refine Or.inl ?_
    simp only [overlapX, Box.size, Box.center]
    exact separated_overlap_neg _ _ _ _ (Or.inr hc)
  · refine Or.inr (Or.inl ?_)
    simp only [overlapY, Box.size, Box.center]
    exact separated_overlap_neg _ _ _ _ (Or.inl hc)
  · refine Or.inr (Or.inl ?_)
    simp only [overlapY, Box.size, Box.center]
    exact separated_overlap_neg _ _ _ _ (Or.inr hc)
  · refine Or.inr (Or.inr ?_)
    simp only [overlapZ, Box.size, Box.center]
    exact separated_overlap_neg _ _ _ _ (Or.inl hc)
  · refine Or.inr (Or.inr ?_)
    simp only [overlapZ, Box.size, Box.center]
    exact separated_overlap_neg _ _ _ _ (Or.inr hc)

/-- Overlap on x of the mesh bounds after a translation along x only. -/
theorem overlapX_of_push (r p : Player) (b : Box) (s amt : ℚ)
    (hpos : r.position = p.position.addScaled ⟨s, 0, 0⟩ amt)
    (hmin : r.hbMinOff = p.hbMinOff) (hmax : r.hbMaxOff = p.hbMaxOff) :
    overlapX (r.meshBounds) b
      = (p.meshBounds).size.x / 2 + b.size.x / 2
        - |(p.meshBounds).center.x - b.center.x + s * amt| := by
  simp only [overlapX, Player.meshBounds, Box.center, Box.size, Vec3.add,
    Vec3.addScaled, hpos, hmin, hmax]
  congr 1
  · ring
  · congr 1
    ring

/-- Overlap on y of the mesh bounds after a translation along y only. -/
theorem overlapY_of_push (r p : Player) (b : Box) (s amt : ℚ)
    (hpos : r.position = p.position.addScaled ⟨0, s, 0⟩ amt)
    (hmin : r.hbMinOff = p.hbMinOff) (hmax : r.hbMaxOff = p.hbMaxOff) :
    overlapY (r.meshBounds) b
      = (p.meshBounds).size.y / 2 + b.size.y / 2
        - |(p.meshBounds).center.y - b.center.y + s * amt| := by
  simp only [overlapY, Player.meshBounds, Box.center, Box.size, Vec3.add,
    Vec3.addScaled, hpos, hmin, hmax]
  congr 1
  · ring
  · congr 1
    ring

/-- Overlap on z of the mesh bounds after a translation along z only. -/
theorem overlapZ_of_push (r p : Player) (b : Box) (s amt : ℚ)
    (hpos : r.position = p.position.addScaled ⟨0, 0, s⟩ amt)
    (hmin : r.hbMinOff = p.hbMinOff) (hmax : r.hbMaxOff = p.hbMaxOff) :
    overlapZ (r.meshBounds) b
      = (p.meshBounds).size.z / 2 + b.size.z / 2
        - |(p.meshBounds).center.z - b.center.z + s * amt| := by
  simp only [overlapZ, Player.meshBounds, Box.center, Box.size, Vec3.add,
    Vec3.addScaled, hpos, hmin, hmax]
  congr 1
  · ring
  · congr 1
    ring

/-- C3 (amended): the no-residual-penetration guarantee holds per body, not
globally: for a single collision body whose center differs from the player's
hitbox center on every axis, handleCollisions leaves the actor's bounding box
not interpenetrating that body (its overlap is non-positive on some axis).
With several bodies the guarantee fails — see the counterexample — because a
later body's push-out can move the actor back into an earlier body. -/
theorem handleCollisions_single_clears (p : Player) (b : Box)
    (hdx : (p.meshBounds).center.x ≠ b.center.x)
    (hdy : (p.meshBounds).center.y ≠ b.center.y)
    (hdz : (p.meshBounds).center.z ≠ b.center.z) :
    ¬ strictlyOverlaps ((p.handleCollisions [b]).hitbox) b := by
  intro hstrict
  have hstrict' : strictlyOverlaps ((p.resolveCollision b).meshBounds) b := by
    rw [handleCollisions_singleton] at hstrict
    exact hstrict
  obtain ⟨hoffmin, hoffmax⟩ := resolveCollision_offsets p b
  by_cases hI : (p.meshBounds).intersectsBox b = true
  · by_cases hnp : overlapX (p.meshBounds) b ≤ 0 ∨ overlapY (p.meshBounds) b ≤ 0
        ∨ overlapZ (p.meshBounds) b ≤ 0
    · have hmb : (p.resolveCollision b).meshBounds = p.meshBounds := by
        rw [resolveCollision_of_nonpos_overlap p b hnp]
        rfl
      rw [hmb] at hstrict'
      obtain ⟨hsx, hsy, hsz⟩ := hstrict'
      rcases hnp with h | h | h <;> linarith
    · push_neg at hnp
      obtain ⟨h1, h2, h3⟩ := hnp
      by_cases hyx : overlapY (p.meshBounds) b < overlapX (p.meshBounds) b
      · by_cases hzy : overlapZ (p.meshBounds) b < overlapY (p.meshBounds) b
        · obtain ⟨hpos, _⟩ :=
            resolveCollision_push_z p b hI h1 h2 h3 (lt_trans hzy hyx) hzy
          simp only [mtvFor] at hpos
          have hov := overlapZ_of_push (p.resolveCollision b) p b
            (qsign ((p.meshBounds).center.z - b.center.z))
            (overlapZ (p.meshBounds) b * (101 / 100)) hpos hoffmin hoffmax
          have hsep := push_separates ((p.meshBounds).size.z / 2 + b.size.z / 2)
            ((p.meshBounds).center.z - b.center.z) (overlapZ (p.meshBounds) b)
            h3 rfl (sub_ne_zero.2 hdz)
          have hfin := hstrict'.2.2
          rw [hov] at hfin
          linarith
        · obtain ⟨hpos, _⟩ :=
            resolveCollision_push_y p b hI h1 h2 h3 hyx (not_lt.1 hzy)
          simp only [mtvFor] at hpos
          have hov := overlapY_of_push (p.resolveCollision b) p b
            (qsign ((p.meshBounds).center.y - b.center.y))
            (overlapY (p.meshBounds) b * (101 / 100)) hpos hoffmin hoffmax
          have hsep := push_separates ((p.meshBounds).size.y / 2 + b.size.y / 2)
            ((p.meshBounds).center.y - b.center.y) (overlapY (p.meshBounds) b)
            h2 rfl (sub_ne_zero.2 hdy)
          have hfin := hstrict'.2.1
          rw [hov] at hfin
          linarith
      · by_cases hzx : overlapZ (p.meshBounds) b < overlapX (p.meshBounds) b
        · obtain ⟨hpos, _⟩ :=
            resolveCollision_push_z p b hI h1 h2 h3 hzx
              (lt_of_lt_of_le hzx (not_lt.1 hyx))
          simp only [mtvFor] at hpos
          have hov := overlapZ_of_push (p.resolveCollision b) p b
            (qsign ((p.meshBounds).center.z - b.center.z))
            (overlapZ (p.meshBounds) b * (101 / 100)) hpos hoffmin hoffmax
          have hsep := push_separates ((p.meshBounds).size.z / 2 + b.size.z / 2)
            ((p.meshBounds).center.z - b.center.z) (overlapZ (p.meshBounds) b)
            h3 rfl (sub_ne_zero.2 hdz)
          have hfin := hstrict'.2.2
          rw [hov] at hfin
          linarith
        · obtain ⟨hpos, _⟩ :=
            resolveCollision_push_x p b hI h1 h2 h3 (not_lt.1 hyx) (not_lt.1 hzx)
          simp only [mtvFor] at hpos
          have hov := overlapX_of_push (p.resolveCollision b) p b
            (qsign ((p.meshBounds).center.x - b.center.x))
            (overlapX (p.meshBounds) b * (101 / 100)) hpos hoffmin hoffmax
          have hsep := push_separates ((p.meshBounds).size.x / 2 + b.size.x / 2)
            ((p.meshBounds).center.x - b.center.x) (overlapX (p.meshBounds) b)
            h1 rfl (sub_ne_zero.2 hdx)
          have hfin := hstrict'.1
          rw [hov] at hfin
          linarith
  · have hfalse : (p.meshBounds).intersectsBox b = false := by
      cases hb : (p.meshBounds).intersectsBox b
      · rfl
      · exact absurd hb hI
    have hmb : (p.resolveCollision b).meshBounds = p.meshBounds := by
      rw [resolveCollision_of_not_intersects p b hfalse]
      rfl
    rw [hmb] at hstrict'
    obtain ⟨hsx, hsy, hsz⟩ := hstrict'
    rcases not_intersects_overlap_neg (p.meshBounds) b hfalse with h | h | h <;> linarith

/-- A single collision body whose center differs from the player's hitbox
center on every axis (used to witness the single-body clearing theorem and
the MTV characterization). -/
def singleCollisionBody : Box := ⟨⟨-1/2, -3/4, -1/4⟩, ⟨3/2, 5/4, 7/4⟩⟩

/-- C3 (amended) witness: the single-body theorem applied at a concrete
overlapping player/body pair with distinct centers on every axis. -/
theorem handleCollisions_single_clears_witness :
    ((collisionPlayer.meshBounds).center.x ≠ singleCollisionBody.center.x
        ∧ (collisionPlayer.meshBounds).center.y ≠ singleCollisionBody.center.y
        ∧ (collisionPlayer.meshBounds).center.z ≠ singleCollisionBody.center.z)
      ∧ ¬ strictlyOverlaps
          ((collisionPlayer.handleCollisions [singleCollisionBody]).hitbox)
          singleCollisionBody :=
  ⟨by with_unfolding_all decide,
    handleCollisions_single_clears collisionPlayer singleCollisionBody
      (by with_unfolding_all decide) (by with_unfolding_all decide)
      (by with_unfolding_all decide)⟩

/-- C4: for an intersecting actor/obstacle box pair, collision resolution
skips the object entirely when some axis overlap is non-positive, and
otherwise selects the axis of minimum positive per-axis penetration (ties
broken in evaluation order x, y, z — first encountered wins), moves the
actor along that axis by `overlap * 1.01` signed away from the obstacle's
center (the MTV direction), and cancels the velocity component along the
push normal exactly when it points into the obstacle (negative dot). -/
theorem resolveCollision_mtv_characterization (p : Player) (b : Box)
    (hI : (p.meshBounds).intersectsBox b = true) :
    ((overlapX (p.meshBounds) b ≤ 0 ∨ overlapY (p.meshBounds) b ≤ 0
        ∨ overlapZ (p.meshBounds) b ≤ 0) →
      p.resolveCollision b = { p with hitbox := p.meshBounds })
    ∧ (0 < overlapX (p.meshBounds) b → 0 < overlapY (p.meshBounds) b →
        0 < overlapZ (p.meshBounds) b →
        ((overlapX (p.meshBounds) b ≤ overlapY (p.meshBounds) b
            ∧ overlapX (p.meshBounds) b ≤ overlapZ (p.meshBounds) b →
          (p.resolveCollision b).position
              = p.position.addScaled (mtvFor (p.meshBounds) b Axis.x)
                  (overlapX (p.meshBounds) b * (101 / 100))
            ∧ (p.resolveCollision b).velocity
              = (if p.velocity.dot (mtvFor (p.meshBounds) b Axis.x) < 0 then
                  p.velocity.sub ((mtvFor (p.meshBounds) b Axis.x).scale
                    (p.velocity.dot (mtvFor (p.meshBounds) b Axis.x)))
                else p.velocity))
        ∧ (overlapY (p.meshBounds) b < overlapX (p.meshBounds) b
            ∧ overlapY (p.meshBounds) b ≤ overlapZ (p.meshBounds) b →
          (p.resolveCollision b).position
              = p.position.addScaled (mtvFor (p.meshBounds) b Axis.y)
                  (overlapY (p.meshBounds) b * (101 / 100))
            ∧ (p.resolveCollision b).velocity
              = (if p.velocity.dot (mtvFor (p.meshBounds) b Axis.y) < 0 then
                  p.velocity.sub ((mtvFor (p.meshBounds) b Axis.y).scale
                    (p.velocity.dot (mtvFor (p.meshBounds) b Axis.y)))
                else p.velocity))
        ∧ (overlapZ (p.meshBounds) b < overlapX (p.meshBounds) b
            ∧ overlapZ (p.meshBounds) b < overlapY (p.meshBounds) b →
          (p.resolveCollision b).position
              = p.position.addScaled (mtvFor (p.meshBounds) b Axis.z)
                  (overlapZ (p.meshBounds) b * (101 / 100))
            ∧ (p.resolveCollision b).velocity
              = (if p.velocity.dot (mtvFor (p.meshBounds) b Axis.z) < 0 then
                  p.velocity.sub ((mtvFor (p.meshBounds) b Axis.z).scale
                    (p.velocity.dot (mtvFor (p.meshBounds) b Axis.z)))
                else p.velocity)))) :=
  ⟨resolveCollision_of_nonpos_overlap p b,
    fun h1 h2 h3 =>
      ⟨fun hx => resolveCollision_push_x p b hI h1 h2 h3 hx.1 hx.2,
        fun hy => resolveCollision_push_y p b hI h1 h2 h3 hy.1 hy.2,
        fun hz => resolveCollision_push_z p b hI h1 h2 h3 hz.1 hz.2⟩⟩

/-- C4 witness: the characterization applied at a concrete intersecting
pair where z has the minimum overlap (5/4 against 3/2 on x and 7/4 on y). -/
theorem resolveCollision_mtv_characterization_witness :
    ((collisionPlayer.meshBounds).intersectsBox singleCollisionBody = true)
      ∧ (collisionPlayer.resolveCollision singleCollisionBody).position
        = collisionPlayer.position.addScaled
            (mtvFor (collisionPlayer.meshBounds) singleCollisionBody Axis.z)
            (overlapZ (collisionPlayer.meshBounds) singleCollisionBody * (101 / 100)) :=
  ⟨by with_unfolding_all decide,
    (((resolveCollision_mtv_characterization collisionPlayer singleCollisionBody
          (by with_unfolding_all decide)).2
        (by with_unfolding_all decide) (by with_unfolding_all decide)
        (by with_unfolding_all decide)).2.2
      ⟨by with_unfolding_all decide, by with_unfolding_all decide⟩).1⟩

/-!
Game (src/core: class Game). The renderer, audio, UI, network and
persistence collaborators are fire-and-forget externals with no effect on
the simulation state, so only the game/actor state is modelled. The health
system of the Player (currentHealth/maxHealth/heal/resetForRespawn) is
referenced by Game but its class methods are not under src/; those pieces
are modelled from the spec where noted.
-/

/-- An NPC as far as the game loop is concerned: a display name and the
win-condition marker read from `appearance?.isWinConditionNPC`. -/
structure NPC where
  name : String
  isWinConditionNPC : Bool
deriving DecidableEq

/-- Payload of a collected memory (`memoryData`), identified by id. -/
structure MemoryData where
  id : ℕ
deriving DecidableEq, Repr

/-- Artifact effect payloads dispatched by Game.applyArtifactEffect. -/
inductive Effect where
  | oxygenEfficiency
  | nightVision
  | telekinesis
deriving DecidableEq

/-- Collected item data as processed in Game.update (`itemData.type`). -/
inductive ItemData where
  | artifact (effect : Option Effect)
  | memory (m : MemoryData)
  | health
deriving DecidableEq

/-- The flat input-intent record produced by InputManager.getInputState. -/
structure Input where
  forward : Bool
  backward : Bool
  left : Bool
  right : Bool
  jump : Bool
  down : Bool
  action : Bool
  interact : Bool
  pause : Bool
deriving DecidableEq

/-- InputManager.clearInputState: every intent reset to false. -/
def Input.cleared : Input := ⟨false, false, false, false, false, false, false, false, false⟩

/-- The Game instance state: loop flags, the player, the spawn reference,
the dialogue NPC, and the `this.state` record (artifacts, memories,
collectedMemories, depth, gameTimer, gameOverReason, gameWon, finalScore,
scoreFromLastAttempt). `levelCollectedIds` models the level manager's set of
already-collected collectible ids (reset by resetCollectibles). -/
structure Game where
  isRunning : Bool
  isPaused : Bool
  isUserPaused : Bool
  player : Option Player
  initialPlayerPosition : Option Vec3
  interactingNPC : Option NPC
  artifacts : ℕ
  memories : ℕ
  collectedMemories : List MemoryData
  depth : ℚ
  gameTimer : ℚ
  gameOverReason : Option String
  gameWon : Bool
  finalScore : ℤ
  scoreFromLastAttempt : Option ℤ
  levelCollectedIds : List ℕ
deriving DecidableEq

/-- Player.enableHighJump: sets the flag when not already set. -/
def Player.enableHighJump (p : Player) : Player :=
  if ¬p.hasHighJump then { p with hasHighJump := true } else p

/-- Player.enableTelekinesis: enables the ability (the visual indicator is
presentation-only). -/
def Player.enableTelekinesis (p : Player) : Player :=
  { p with canTelekinesis := true }

/-- Modelled from the spec: Player.heal is not under src/ (only its call
site `this.player.heal(50)` is). Per §3 the health invariant is
`health ∈ [0, max]`, so healing adds the amount clamped to maxHealth. -/
def Player.heal (amount : ℚ) (p : Player) : Player :=
  { p with currentHealth := min p.maxHealth (p.currentHealth + amount) }

/-- Modelled from the spec: Player.resetForRespawn is not under src/ (only
its call site in Game.respawnPlayer is). Per §3/§4.3 the respawn sequence
resets the actor's per-life movement state: velocity, jump/fall flags and
the current fall-distance accumulator. -/
def Player.resetForRespawn (p : Player) : Player :=
  { p with velocity := ⟨0, 0, 0⟩, isJumping := false, isFalling := false,
           currentFallDistance := 0 }

/-- Game.gameOver (simulation-state effect): stop the loop, record the
reason, and compute the final score with the inline formula. The
saveHighScore / getHighScores / UI / audio calls are external. -/
def Game.gameOver (reason : String) (g : Game) : Game :=
  if ¬g.isRunning then g
  else
    { g with isRunning := false, gameOverReason := some reason,
             finalScore := Game.gameOverInlineScore g.gameTimer g.artifacts g.memories }

/-- Game.respawnPlayer: without a player or recorded spawn position this
escalates to gameOver('respawn_error'); otherwise the displayed score is the
one passed in or the inline formula, the session state (timer, artifacts,
memories, collected list) is reset, the level collectibles are reset, the
actor is reset and moved to the initial spawn position, the loop is forced
running/unpaused, and health is restored to maxHealth when present. -/
def Game.respawnPlayer (reason : String) (scoreToDisplay : Option ℤ) (g : Game) : Game :=
  match g.player, g.initialPlayerPosition with
  | some pl, some initPos =>
    let finalScoreForDisplay :=
      match scoreToDisplay with
      | some s => s
      | none => Game.respawnInlineScore g.gameTimer g.artifacts g.memories
    let g := { g with scoreFromLastAttempt := some finalScoreForDisplay }
    let pl := pl.resetForRespawn
    let g := { g with gameTimer := 0, artifacts := 0, memories := 0,
                      collectedMemories := [], levelCollectedIds := [] }
    let pl := pl.setPosition (PosArg.vector3 initPos)
    let g := { g with player := some pl,
                      isRunning := true, isPaused := false, isUserPaused := false }
    if pl.maxHealth ≠ 0 then
      { g with player := some { pl with currentHealth := pl.maxHealth } }
    else g
  | _, _ => Game.gameOver "respawn_error" g

/-- Game.gameWon: mark the win, compute the final score with the win bonus
through the shared calculateScore, clear the last-attempt score, and
immediately respawn with reason 'win' passing the computed score. -/
def Game.gameWonFn (g : Game) : Game :=
  if ¬g.isRunning then g
  else
    let g := { g with gameWon := true }
    let g := { g with
      finalScore := Game.calculateScore g.gameTimer g.artifacts g.memories true }
    let g := { g with scoreFromLastAttempt := none }
    Game.respawnPlayer "win" (some g.finalScore) g

/-- Game.checkWinCondition: winning is keyed off the NPC display name; for
any other NPC only a failsafe dialogue is shown (presentation-only). -/
def Game.checkWinCondition (g : Game) : Game :=
  match g.interactingNPC with
  | some npc =>
    if npc.name = "Guardian of the Depths" then Game.gameWonFn g else g
  | none => g

/-- Game.unpauseAndEndDialogue: hide the dialogue (external), unpause and
drop the NPC reference. -/
def Game.unpauseAndEndDialogue (g : Game) : Game :=
  { g with isPaused := false, interactingNPC := none }

/-- Game.togglePause: flip the user-pause flag; the clock stop/start, audio
pause/resume and pause-screen UI are external side effects. -/
def Game.togglePause (g : Game) : Game :=
  { g with isUserPaused := !g.isUserPaused }

/-- Game.applyArtifactEffect: telekinesis toggles the player ability;
night vision only touches the renderer; oxygen efficiency is a no-op. -/
def Game.applyArtifactEffect (effect : Effect) (g : Game) : Game :=
  match effect with
  | .oxygenEfficiency => g
  | .nightVision => g
  | .telekinesis => { g with player := g.player.map Player.enableTelekinesis }

/-- Game.collectArtifact: bump the counter, apply the effect if any, and
enable the high jump on the first artifact of the life. -/
def Game.collectArtifact (effect : Option Effect) (g : Game) : Game :=
  let g := { g with artifacts := g.artifacts + 1 }
  let g :=
    match effect with
    | some e => Game.applyArtifactEffect e g
    | none => g
  if g.artifacts = 1 then { g with player := g.player.map Player.enableHighJump }
  else g

/-- Game.collectMemory: bump the counter, and append the memory data only
when no entry with the same id is already present. -/
def Game.collectMemory (g : Game) (memoryData : MemoryData) : Game :=
  let g := { g with memories := g.memories + 1 }
  if g.collectedMemories.any (fun m => m.id == memoryData.id) then g
  else { g with collectedMemories := g.collectedMemories ++ [memoryData] }

/-- Dispatch of a collected item in Game.update (artifact / memory /
health). -/
def Game.processCollectedItem (g : Game) (it : ItemData) : Game :=
  match it with
  | .artifact effect => Game.collectArtifact effect g
  | .memory m => Game.collectMemory g m
  | .health => { g with player := g.player.map (Player.heal 50) }

/-- Game.updateGameState: update the derived depth from the first platform
surface (145.5), advance the timer when unpaused, then evaluate the terminal
conditions: zero health respawns with 'health', falling below y = -20
respawns with 'fall', and being grounded below y = 5 triggers the win. -/
def Game.updateGameState (dt : ℚ) (g : Game) : Game :=
  match g.player with
  | none => g
  | some pl =>
    let g := { g with depth := max 0 (291 / 2 - pl.position.y) }
    let g :=
      if ¬g.isUserPaused ∧ ¬g.isPaused then { g with gameTimer := g.gameTimer + dt }
      else g
    if pl.currentHealth ≤ 0 then
      if ¬g.isRunning then g else Game.respawnPlayer "health" none g
    else
      let g := if pl.position.y < -20 then Game.respawnPlayer "fall" none g else g
      match g.player with
      | some pl2 =>
        if pl2.isGrounded ∧ pl2.position.y < 5 then Game.gameWonFn g else g
      | none => g

/-- Game.update, one frame: deltaTime is zero while user-paused; a pause
intent toggles the pause and consumes the input; a dialogue pause handles
only the interact intent (win check for the win-condition NPC, else end of
dialogue); a user pause returns before any world mutation; otherwise the
player step runs (its physics is the environment parameter `stepPlayer`,
player.js), the items collected this frame (provided by the level manager,
`collectedItems`) are processed, and the game state is updated. Rendering
and the throttled network send are external. -/
def Game.update (stepPlayer : ℚ → Input → Player → Player)
    (collectedItems : List ItemData) (input : Input) (δ : ℚ) (g : Game) : Game :=
  if ¬g.isRunning then g
  else
    let dt := if g.isUserPaused then 0 else δ
    let g := if input.pause then Game.togglePause g else g
    let input := if input.pause then Input.cleared else input
    if g.isPaused ∧ g.interactingNPC.isSome then
      match g.interactingNPC with
      | some npc =>
        if input.interact then
          if npc.isWinConditionNPC then
            let g := Game.checkWinCondition g
            if g.isRunning then Game.unpauseAndEndDialogue g else g
          else Game.unpauseAndEndDialogue g
        else g
      | none => g
    else if g.isUserPaused then g
    else
      let g :=
        match g.player with
        | some pl => { g with player := some (stepPlayer dt input pl) }
        | none => g
      let g := collectedItems.foldl Game.processCollectedItem g
      Game.updateGameState dt g

/-- C7: for every respawn reason and optional precomputed score, when a
player and a recorded initial spawn position exist, respawnPlayer resets
artifacts, memories, the collected-memory list and the game timer to
zero/empty, resets collectible availability, and moves the actor to the
recorded initial spawn position. -/
theorem respawnPlayer_resets (reason : String) (scoreToDisplay : Option ℤ)
    (g : Game) (pl : Player) (initPos : Vec3)
    (hpl : g.player = some pl) (hip : g.initialPlayerPosition = some initPos) :
    (Game.respawnPlayer reason scoreToDisplay g).artifacts = 0
      ∧ (Game.respawnPlayer reason scoreToDisplay g).memories = 0
      ∧ (Game.respawnPlayer reason scoreToDisplay g).collectedMemories = []
      ∧ (Game.respawnPlayer reason scoreToDisplay g).gameTimer = 0
      ∧ (Game.respawnPlayer reason scoreToDisplay g).levelCollectedIds = []
      ∧ ∃ pl2, (Game.respawnPlayer reason scoreToDisplay g).player = some pl2
          ∧ pl2.position = initPos := by
  simp only [Game.respawnPlayer, hpl, hip]
  split_ifs <;>
    simp [Player.setPosition, Player.resetForRespawn, Player.meshBounds]

/-- Player fixture used by the Game-level witnesses. -/
def samplePlayer : Player :=
  ⟨⟨0, 150, 0⟩, ⟨0, 0, 0⟩, false, false, false, 0, false, false, 100, 100,
    ⟨-1, -1, -1⟩, ⟨1, 1, 1⟩, ⟨⟨0, 0, 0⟩, ⟨0, 0, 0⟩⟩⟩

/-- Running, unpaused game fixture mid-life: some collectibles gathered and
a nonzero timer. -/
def sampleGame : Game :=
  ⟨true, false, false, some samplePlayer, some ⟨0, 150, 0⟩, none,
    2, 3, [⟨1⟩, ⟨2⟩], 0, 55, none, false, 0, none, [4, 5]⟩

/-- C7 witness: the respawn-reset theorem applied to the concrete game
fixture with reason 'fall' and no precomputed score. -/
theorem respawnPlayer_resets_witness :
    (Game.respawnPlayer "fall" none sampleGame).artifacts = 0
      ∧ (Game.respawnPlayer "fall" none sampleGame).memories = 0
      ∧ (Game.respawnPlayer "fall" none sampleGame).collectedMemories = []
      ∧ (Game.respawnPlayer "fall" none sampleGame).gameTimer = 0
      ∧ (Game.respawnPlayer "fall" none sampleGame).levelCollectedIds = []
      ∧ ∃ pl2, (Game.respawnPlayer "fall" none sampleGame).player = some pl2
          ∧ pl2.position = ⟨0, 150, 0⟩ :=
  respawnPlayer_resets "fall" none sampleGame samplePlayer ⟨0, 150, 0⟩ rfl rfl

/-- C8: togglePause is an involution (two toggles restore the exact game
state, in particular isUserPaused), and while user-paused the simulated
clock is frozen: a frame that stays paused leaves the whole state untouched,
and the unpausing frame itself runs with deltaTime 0, so across a pause
interval (no terminal condition pending) gameTimer is unchanged. -/
theorem togglePause_involution_freezes_timer
    (stepPlayer : ℚ → Input → Player → Player) (collectedItems : List ItemData)
    (input : Input) (δ : ℚ) (g : Game)
    (hrun : g.isRunning = true) (hup : g.isUserPaused = true)
    (hdp : g.isPaused = false) :
    Game.togglePause (Game.togglePause g) = g
      ∧ (input.pause = false →
          Game.update stepPlayer collectedItems input δ g = g)
      ∧ (∀ pl pl', g.player = some pl → stepPlayer 0 Input.cleared pl = pl' →
          0 < pl'.currentHealth → ¬pl'.position.y < -20 →
          ¬(pl'.isGrounded = true ∧ pl'.position.y < 5) →
          input.pause = true →
          (Game.update stepPlayer [] input δ g).gameTimer = g.gameTimer) := by
  refine ⟨?_, ?_, ?_⟩
  · simp [Game.togglePause]
  · intro hnp
    simp [Game.update, hrun, hup, hdp, hnp]
  · intro pl pl' hpl hstep hh hy hw hp
    simp only [Game.update, hrun, hup, hdp, hp, Bool.not_true, if_true, if_false,
      Game.togglePause, Bool.not_false, hpl]
    simp only [Game.updateGameState, hstep, List.foldl_nil, hpl, Option.some.injEq]
    simp [Game.updateGameState, hdp, not_le.2 hh, hy, hw]

/-- Identity player step used to instantiate the frame-update environment in
witnesses. -/
def stepPlayerId : ℚ → Input → Player → Player := fun _ _ pl => pl

/-- Game fixture identical to sampleGame but user-paused. -/
def pausedGame : Game :=
  ⟨true, false, true, some samplePlayer, some ⟨0, 150, 0⟩, none,
    2, 3, [⟨1⟩, ⟨2⟩], 0, 55, none, false, 0, none, [4, 5]⟩

/-- Input with only the pause intent set. -/
def pauseInput : Input := ⟨false, false, false, false, false, false, false, false, true⟩

/-- C8 witness: the pause theorem applied to the concrete paused fixture:
double toggle restores the state, and the unpausing frame leaves the timer
at 55. -/
theorem togglePause_involution_freezes_timer_witness :
    (pausedGame.isRunning = true ∧ pausedGame.isUserPaused = true
        ∧ pausedGame.isPaused = false)
      ∧ Game.togglePause (Game.togglePause pausedGame) = pausedGame
      ∧ (Game.update stepPlayerId [] pauseInput 7 pausedGame).gameTimer
        = pausedGame.gameTimer :=
  ⟨by with_unfolding_all decide,
    (togglePause_involution_freezes_timer stepPlayerId [] pauseInput 7 pausedGame
        rfl rfl rfl).1,
    (togglePause_involution_freezes_timer stepPlayerId [] pauseInput 7 pausedGame
        rfl rfl rfl).2.2 samplePlayer samplePlayer rfl rfl
      (by with_unfolding_all decide) (by with_unfolding_all decide)
      (by with_unfolding_all decide) rfl⟩

/-- Entries of a collected-memory list are pairwise distinct by id. -/
def distinctIds (l : List MemoryData) : Prop :=
  l.Pairwise (fun a b => a.id ≠ b.id)

/-- One collectMemory call preserves id-distinctness and increments the
memories counter. -/
theorem collectMemory_step (g : Game) (m : MemoryData)
    (h : distinctIds g.collectedMemories) :
    distinctIds ((Game.collectMemory g m).collectedMemories)
      ∧ (Game.collectMemory g m).memories = g.memories + 1 := by
  unfold Game.collectMemory
  by_cases hany : g.collectedMemories.any (fun m2 => m2.id == m.id) = true
  · simp only [hany, if_true]
    exact ⟨h, trivial⟩
  · simp only [hany, if_false, Bool.false_eq_true]
    refine ⟨?_, trivial⟩
    unfold distinctIds at h ⊢
    rw [List.pairwise_append]
    refine ⟨h, List.pairwise_singleton _ _, ?_⟩
    intro a ha b hb
    have hne : ¬(a.id == m.id) = true := by
      intro hc
      exact hany (List.any_eq_true.2 ⟨a, ha, hc⟩)
    rw [List.mem_singleton] at hb
    subst hb
    exact fun hcc => hne (by simp [hcc])

/-- C10: over every sequence of collectMemory calls within a life (starting
from a state whose collected list is id-distinct, as after a respawn reset),
collectedMemories keeps at most one entry per memory id — a repeated id
increments the memories counter but is not appended again — so its entries
stay pairwise distinct by id, while the counter grows by the full call
count. -/
theorem collectMemory_fold_distinct (g : Game) (ms : List MemoryData)
    (h : distinctIds g.collectedMemories) :
    distinctIds ((ms.foldl Game.collectMemory g).collectedMemories)
      ∧ (ms.foldl Game.collectMemory g).memories = g.memories + ms.length := by
  induction ms generalizing g with
  | nil => exact ⟨h, rfl⟩
  | cons m rest ih =>
    obtain ⟨h1, h2⟩ := collectMemory_step g m h
    obtain ⟨h3, h4⟩ := ih (Game.collectMemory g m) h1
    refine ⟨h3, ?_⟩
    rw [List.foldl_cons, h4, h2, List.length_cons]
    omega

/-- C10 witness: the fold theorem applied to the concrete fixture (already
holding ids 1 and 2) with a repeat of id 1: the list stays duplicate-free
and the counter counts all three calls. -/
theorem collectMemory_fold_distinct_witness :
    distinctIds sampleGame.collectedMemories
      ∧ distinctIds (([⟨1⟩, ⟨3⟩, ⟨1⟩] : List MemoryData).foldl
          Game.collectMemory sampleGame).collectedMemories
      ∧ (([⟨1⟩, ⟨3⟩, ⟨1⟩] : List MemoryData).foldl
          Game.collectMemory sampleGame).memories = sampleGame.memories + 3 :=
  ⟨by unfold distinctIds sampleGame; decide,
    (collectMemory_fold_distinct sampleGame [⟨1⟩, ⟨3⟩, ⟨1⟩]
        (by unfold distinctIds sampleGame; decide)).1,
    (collectMemory_fold_distinct sampleGame [⟨1⟩, ⟨3⟩, ⟨1⟩]
        (by unfold distinctIds sampleGame; decide)).2⟩
